import Mathlib

/-!
Verification development for the ruffle object-runtime slice:
`core/src/avm2/object/dispatch_object.rs` (the dispatch-list-holder
object kind) and `web/src/builder.rs` (the web instance builder).

Shallow embedding conventions:
  * `Gc<'gc, T>` pointers are heap addresses (`Nat`); the arena heap maps
    addresses to cells.  `Gc::cast` is an address-preserving reinterpretation.
  * The gc-arena `Mutation` context is modelled by the list of addresses on
    which the write barrier (`Gc::write`) has been invoked.
  * `RefLock` borrow flags are modelled by an explicit borrow-state machine;
    a checked-borrow violation (a panic in the source) is `none`.
  * Fallible Rust operations returning `Result<T, Error>` become
    `Except Error T`.
-/

namespace RuffleSpec

/-! ### Dispatch list

Modelled from the spec: the `DispatchList` type lives in
`core/src/avm2/events.rs`, which is outside the provided sources; the model
below follows the spec's description (section 3 "Dispatch List" and section
4.3): an ordered registry partitioned into per-(event-type, use-capture)
buckets, each bucket ordered by priority (descending) with insertion order
breaking ties, and idempotent registration keyed on the
(event-type, callback, use-capture) triple. -/

/-- One listener registration inside a bucket: callback target (an object
handle), priority, and the call-at-most-once flag. -/
structure Listener where
  callback : Nat
  priority : Int
  once : Bool
deriving DecidableEq, Repr

/-- The ordered registry of event listeners: buckets keyed by
(event-type, use-capture). -/
structure DispatchList where
  buckets : List ((String × Bool) × List Listener)
deriving DecidableEq, Repr

/-- Empty dispatch list (`DispatchList::new`). -/
def DispatchList.new : DispatchList := ⟨[]⟩

/-- The bucket for one (event-type, use-capture) pair, empty when absent. -/
def DispatchList.bucket (dl : DispatchList) (eventType : String) (useCapture : Bool) :
    List Listener :=
  match dl.buckets.find? (fun p => p.1 = (eventType, useCapture)) with
  | some p => p.2
  | none => []

/-- Replace (or create) the bucket for one (event-type, use-capture) pair. -/
def DispatchList.setBucket (dl : DispatchList) (eventType : String) (useCapture : Bool)
    (b : List Listener) : DispatchList :=
  ⟨((eventType, useCapture), b) ::
    dl.buckets.filter (fun p => ¬ p.1 = (eventType, useCapture))⟩

/-- Insert a new registration after every existing registration of greater or
equal priority: priority descending, insertion order breaking ties. -/
def insertByPriority (l : Listener) : List Listener → List Listener
  | [] => [l]
  | x :: xs =>
    if l.priority ≤ x.priority then x :: insertByPriority l xs
    else l :: x :: xs

/-- Register a listener; a second registration with an identical
(event-type, callback, use-capture) triple is a no-op. -/
def DispatchList.add_listener (dl : DispatchList) (eventType : String) (cb : Nat)
    (useCapture : Bool) (priority : Int) (once : Bool) : DispatchList :=
  let b := dl.bucket eventType useCapture
  if b.any (fun l => l.callback == cb) then dl
  else dl.setBucket eventType useCapture (insertByPriority ⟨cb, priority, once⟩ b)

/-- True iff any bucket (either phase) has an entry for the event type. -/
def DispatchList.has_listener (dl : DispatchList) (eventType : String) : Bool :=
  ¬ (dl.bucket eventType true).isEmpty || ¬ (dl.bucket eventType false).isEmpty

/-- The callbacks a dispatch of (event-type, phase-bucket) invokes, in bucket
order (snapshot of the bucket at dispatch time). -/
def DispatchList.invocationCallbacks (dl : DispatchList) (eventType : String)
    (useCapture : Bool) : List Nat :=
  (dl.bucket eventType useCapture).map (fun l => l.callback)

/-! ### Base data and the dispatch-object kind

From `core/src/avm2/object/dispatch_object.rs`.  `ScriptObjectData` itself
lives in `script_object.rs`, outside the provided sources, and is modelled
from the spec (section 3 "Base Data"): class identity, property table,
prototype back-reference. -/

/-- Modelled from the spec: the shared base-data header every object kind
exposes — class identity, own property table, prototype back-reference
(`ScriptObjectData`, defined in `script_object.rs`, not under `src/`).
Property values and prototype links are object handles (addresses). -/
structure ScriptObjectData where
  classId : Nat
  properties : List (String × Nat)
  proto : Option Nat
deriving DecidableEq, Repr

/-- Payload of the dispatch-list-holder kind (`DispatchObjectData`): the
shared base data first, then the held dispatch list.  The source wraps
`dispatch` in a `RefLock`; the lock's borrow flags are modelled separately
by `BorrowState` below, so the field here is the lock's protected value. -/
structure DispatchObjectData where
  base : ScriptObjectData
  dispatch : DispatchList
deriving DecidableEq, Repr

/-- A `Gc<'gc, DispatchObjectData<'gc>>` handle: the address of the cell. -/
structure DispatchObject where
  addr : Nat
deriving DecidableEq, Repr

/-- A `Gc<'gc, ScriptObjectData<'gc>>` handle produced by `gc_base`. -/
structure BaseHandle where
  addr : Nat
deriving DecidableEq, Repr

/-- The arena heap: a partial map from addresses to dispatch-object cells. -/
structure Heap where
  data : Nat → Option DispatchObjectData

/-- Dereference a dispatch-object handle. -/
def derefDispatch (h : Heap) (o : DispatchObject) : Option DispatchObjectData :=
  h.data o.addr

/-- Dereference a base-data handle: it reads the base header of the cell it
points at (the in-place view `Gc::cast` produces). -/
def derefBase (h : Heap) (b : BaseHandle) : Option ScriptObjectData :=
  (h.data b.addr).map (fun d => d.base)

/-- The view-as-base operation (`DispatchObject::gc_base`): an
address-preserving reinterpretation of the handle (`Gc::cast`), total —
no failure path and no panic path exist in the source. -/
def DispatchObject.gc_base (o : DispatchObject) : BaseHandle :=
  ⟨o.addr⟩

/-- The gc-arena mutation context, modelled by the set of addresses the
write barrier has been invoked on since the last collection cycle. -/
structure Mutation where
  barriered : List Nat
deriving DecidableEq, Repr

/-- The write barrier (`Gc::write`): marks the cell as mutated so the
collector re-scans it. -/
def gcWrite (mc : Mutation) (addr : Nat) : Mutation :=
  ⟨addr :: mc.barriered⟩

/-- The polymorphic object handle (`Object<'gc>`).  The dispatch-list-holder
variant is from the source; `script` stands for every other concrete kind
(modelled from the spec: all non-dispatch kinds use the capability
interface's default implementations). -/
inductive Object where
  | dispatch : DispatchObject → Object
  | script : Nat → Object
deriving DecidableEq, Repr

/-- Modelled from the spec: the generic value representation (`Value<'gc>`),
kept minimal — these operations never inspect their `Value` arguments. -/
inductive Value where
  | undefined : Value
  | null : Value
  | boolean : Bool → Value
  | object : Object → Value
deriving DecidableEq, Repr

/-- A script-level error (`Error<'gc>` built from a message string). -/
structure Error where
  message : String
deriving DecidableEq, Repr

/-- The `construct` capability on the dispatch-list-holder kind: always
returns the documented error and touches neither heap nor arguments. -/
def DispatchObject.construct (_self : DispatchObject) (st : Heap)
    (_args : List Value) : Except Error Object × Heap :=
  (Except.error ⟨"Cannot construct internal event dispatcher structures."⟩, st)

/-- The coerce-to-primitive capability (`value_of`) on the
dispatch-list-holder kind: always returns the documented error. -/
def DispatchObject.value_of (_self : DispatchObject) (_mc : Mutation) :
    Except Error Value :=
  Except.error ⟨"Cannot subclass internal event dispatcher structures."⟩

/-- Read-only dispatch-list view (`as_dispatch`): borrows the list without
touching the mutation context (no write barrier on the read path). -/
def DispatchObject.as_dispatch (mc : Mutation) (h : Heap) (o : DispatchObject) :
    Option DispatchList × Mutation :=
  ((h.data o.addr).map (fun d => d.dispatch), mc)

/-- Mutable dispatch-list view (`as_dispatch_mut`): invokes the write
barrier on the cell (`Gc::write`) and only then projects and borrows the
dispatch field (`unlock!` + `borrow_mut`). -/
def DispatchObject.as_dispatch_mut (mc : Mutation) (h : Heap) (o : DispatchObject) :
    Option DispatchList × Mutation :=
  let mcW := gcWrite mc o.addr
  ((h.data o.addr).map (fun d => d.dispatch), mcW)

/-- Capability dispatch of `as_dispatch` over the object kinds.  Modelled
from the spec for the non-dispatch kinds: the capability interface's
default implementation returns `none`. -/
def Object.as_dispatch (mc : Mutation) (h : Heap) : Object → Option DispatchList × Mutation
  | Object.dispatch o => DispatchObject.as_dispatch mc h o
  | Object.script _ => (none, mc)

/-- Capability dispatch of `as_dispatch_mut` over the object kinds.
Modelled from the spec for the non-dispatch kinds: the default
implementation returns `none`. -/
def Object.as_dispatch_mut (mc : Mutation) (h : Heap) : Object → Option DispatchList × Mutation
  | Object.dispatch o => DispatchObject.as_dispatch_mut mc h o
  | Object.script _ => (none, mc)

/-! ### The repr(C) layout of `DispatchObjectData`

The source declares `DispatchObjectData` as `repr(C, align(8))` with the
base header as its first field, and verifies the layering invariant with
two compile-time assertions.  The definitions below embed the repr(C)
layout algorithm: fields are placed in declaration order, each at the next
offset aligned to the field's alignment, and the struct's alignment is the
maximum of the attribute alignment and every field's alignment. -/

/-- Round an offset up to the next multiple of the alignment. -/
def alignUp (off a : Nat) : Nat := ((off + a - 1) / a) * a

/-- Offsets of repr(C) fields, given each field's (size, alignment) and a
starting offset. -/
def reprCOffsetsFrom : Nat → List (Nat × Nat) → List Nat
  | _, [] => []
  | off, f :: rest =>
    let o := alignUp off f.2
    o :: reprCOffsetsFrom (o + f.1) rest

/-- Offsets of the fields of a repr(C) struct. -/
def reprCOffsets (fields : List (Nat × Nat)) : List Nat :=
  reprCOffsetsFrom 0 fields

/-- Alignment of a repr(C, align(n)) struct: the maximum of the attribute
alignment and every field's alignment. -/
def reprCAlign (attrAlign : Nat) (fields : List (Nat × Nat)) : Nat :=
  fields.foldl (fun acc f => max acc f.2) attrAlign

/-- Field list of `DispatchObjectData` in declaration order: the base
header (`ScriptObjectData`) first, then the `RefLock`-wrapped dispatch
list, with symbolic sizes and alignments. -/
def dispatchObjectFields (baseSize baseAlign dispSize dispAlign : Nat) :
    List (Nat × Nat) :=
  [(baseSize, baseAlign), (dispSize, dispAlign)]

/-- The mechanical compile-time layout check of the source (the two
`const _: () = assert!(..)` items): the base field sits at offset 0 of the
payload, and the payload's alignment is compatible with (a multiple of)
the base data's alignment. -/
def dispatchObjectLayoutCheck (baseSize baseAlign dispSize dispAlign : Nat) : Bool :=
  decide ((reprCOffsets
      (dispatchObjectFields baseSize baseAlign dispSize dispAlign)).headD 1 = 0) &&
  decide (baseAlign ∣
    reprCAlign 8 (dispatchObjectFields baseSize baseAlign dispSize dispAlign))

/-- The maximum of two powers of two is a power of two with the maximal
exponent. -/
theorem max_pow_two (a b : Nat) : max (2 ^ a) (2 ^ b) = 2 ^ max a b := by
  rcases Nat.le_total a b with hab | hba
  · rw [Nat.max_eq_right hab,
      Nat.max_eq_right (Nat.pow_le_pow_right (by norm_num) hab)]
  · rw [Nat.max_eq_left hba,
      Nat.max_eq_left (Nat.pow_le_pow_right (by norm_num) hba)]

/-- Aligning offset 0 to a positive alignment stays at 0. -/
theorem alignUp_zero (a : Nat) (ha : 0 < a) : alignUp 0 a = 0 := by
  unfold alignUp
  rw [Nat.zero_add, Nat.div_eq_of_lt (Nat.sub_lt ha Nat.one_pos), Nat.zero_mul]

/-! ### Checked-borrow discipline of the dispatch field -/

/-- Modelled from the spec: the checked-borrow state of the `RefLock`
guarding the dispatch field (gc-arena's `RefLock`, an external primitive
per spec section 5): either unborrowed, read-borrowed by `extra + 1`
readers, or write-borrowed.  A failed borrow (`none`) is the
checked-borrow violation, surfaced as a panic in the source. -/
inductive BorrowState where
  | free : BorrowState
  | reading : Nat → BorrowState
  | writing : BorrowState
deriving DecidableEq, Repr

/-- Attempt a read borrow (`borrow`): fails loudly iff a write borrow is
outstanding. -/
def tryBorrow : BorrowState → Option BorrowState
  | BorrowState.free => some (BorrowState.reading 0)
  | BorrowState.reading n => some (BorrowState.reading (n + 1))
  | BorrowState.writing => none

/-- Attempt a write borrow (`borrow_mut`): fails loudly iff any borrow is
outstanding. -/
def tryBorrowMut : BorrowState → Option BorrowState
  | BorrowState.free => some BorrowState.writing
  | BorrowState.reading _ => none
  | BorrowState.writing => none

/-! ### Sample cell used by the witnesses -/

/-- A concrete base header. -/
def sampleBase : ScriptObjectData := ⟨0, [], none⟩

/-- A concrete dispatch-object cell with an empty dispatch list. -/
def sampleData : DispatchObjectData := ⟨sampleBase, DispatchList.new⟩

/-- A one-cell heap holding `sampleData` at address 0. -/
def sampleHeap : Heap := ⟨fun a => if a = 0 then some sampleData else none⟩

/-! ### Claims about the dispatch-object kind -/

/-- C1: For every valid dispatch-list-holder handle, the view-as-base
operation `gc_base` succeeds — it is a total function with no failure or
panic path — and the base handle it returns addresses the same heap cell,
whose base header is read in place rather than copied. -/
theorem gc_base_total_same_cell (h : Heap) (o : DispatchObject)
    (d : DispatchObjectData) (hv : h.data o.addr = some d) :
    (DispatchObject.gc_base o).addr = o.addr ∧
    derefBase h (DispatchObject.gc_base o) = some d.base := by
  refine ⟨rfl, ?_⟩
  simp [derefBase, DispatchObject.gc_base, hv]

/-- Witness for C1 at a concrete one-cell heap. -/
theorem gc_base_total_same_cell_witness :
    (DispatchObject.gc_base ⟨0⟩).addr = (0 : Nat) ∧
    derefBase sampleHeap (DispatchObject.gc_base ⟨0⟩) = some sampleData.base :=
  gc_base_total_same_cell sampleHeap ⟨0⟩ sampleData rfl

/-- C3: For every dispatch-list-holder instance and every argument list,
`construct` returns the error "Cannot construct internal event dispatcher
structures.", never a new `Object`, and leaves the receiver's state (the
heap) unchanged. -/
theorem construct_always_errors (self : DispatchObject) (st : Heap)
    (args : List Value) :
    DispatchObject.construct self st args =
      (Except.error ⟨"Cannot construct internal event dispatcher structures."⟩, st) ∧
    ∀ o : Object, (DispatchObject.construct self st args).1 ≠ Except.ok o := by
  refine ⟨rfl, fun o hc => ?_⟩
  simp [DispatchObject.construct] at hc

/-- C4: For every dispatch-list-holder instance, `value_of`
(coerce-to-primitive) returns the error "Cannot subclass internal event
dispatcher structures." and never a `Value`. -/
theorem value_of_always_errors (self : DispatchObject) (mc : Mutation) :
    DispatchObject.value_of self mc =
      Except.error ⟨"Cannot subclass internal event dispatcher structures."⟩ ∧
    ∀ v : Value, DispatchObject.value_of self mc ≠ Except.ok v := by
  refine ⟨rfl, fun v hc => ?_⟩
  simp [DispatchObject.value_of] at hc

/-- C5: On every valid dispatch-list-holder instance, `as_dispatch` and
`as_dispatch_mut` return `some` view of its dispatch list, never `none`;
every other kind's capability dispatch returns `none`. -/
theorem as_dispatch_present_only_on_dispatch_kind (mc : Mutation) (h : Heap)
    (o : DispatchObject) (d : DispatchObjectData) (hv : h.data o.addr = some d) :
    (Object.as_dispatch mc h (Object.dispatch o)).1 = some d.dispatch ∧
    (Object.as_dispatch_mut mc h (Object.dispatch o)).1 = some d.dispatch ∧
    (∀ n : Nat, (Object.as_dispatch mc h (Object.script n)).1 = none) ∧
    (∀ n : Nat, (Object.as_dispatch_mut mc h (Object.script n)).1 = none) := by
  refine ⟨?_, ?_, fun n => rfl, fun n => rfl⟩ <;>
    simp [Object.as_dispatch, Object.as_dispatch_mut, DispatchObject.as_dispatch,
      DispatchObject.as_dispatch_mut, hv]

/-- Witness for C5 at a concrete one-cell heap. -/
theorem as_dispatch_present_only_on_dispatch_kind_witness :
    (Object.as_dispatch ⟨[]⟩ sampleHeap (Object.dispatch ⟨0⟩)).1 =
      some sampleData.dispatch ∧
    (Object.as_dispatch_mut ⟨[]⟩ sampleHeap (Object.dispatch ⟨0⟩)).1 =
      some sampleData.dispatch ∧
    (∀ n : Nat, (Object.as_dispatch ⟨[]⟩ sampleHeap (Object.script n)).1 = none) ∧
    (∀ n : Nat, (Object.as_dispatch_mut ⟨[]⟩ sampleHeap (Object.script n)).1 = none) :=
  as_dispatch_present_only_on_dispatch_kind ⟨[]⟩ sampleHeap ⟨0⟩ sampleData rfl

/-- C6: `as_dispatch_mut` passes through the arena's write-barrier path —
its resulting mutation context is exactly the barriered one, so the cell is
marked mutated before the view is handed out — while the read path
`as_dispatch` leaves the mutation context untouched (no barrier). -/
theorem as_dispatch_mut_barriers_read_does_not (mc : Mutation) (h : Heap)
    (o : DispatchObject) :
    o.addr ∈ (DispatchObject.as_dispatch_mut mc h o).2.barriered ∧
    (DispatchObject.as_dispatch_mut mc h o).2 = gcWrite mc o.addr ∧
    (DispatchObject.as_dispatch mc h o).2 = mc :=
  ⟨List.mem_cons_self _ _, rfl, rfl⟩

/-- C7: Read and write access to the dispatch list are mutually exclusive:
a write borrow while any borrow is outstanding, and a read borrow while a
write borrow is outstanding, both fail loudly (the checked-borrow panic,
`none`) rather than hand out a view. -/
theorem borrow_discipline (s : BorrowState) (hs : s ≠ BorrowState.free) :
    tryBorrowMut s = none ∧ tryBorrow BorrowState.writing = none := by
  refine ⟨?_, rfl⟩
  cases s with
  | free => exact absurd rfl hs
  | reading n => rfl
  | writing => rfl

/-- Witness for C7 at the write-borrowed state. -/
theorem borrow_discipline_witness :
    tryBorrowMut BorrowState.writing = none ∧
    tryBorrow BorrowState.writing = none :=
  borrow_discipline BorrowState.writing (by decide)

/-- C2: Under repr(C) with power-of-two alignments, the base header of
`DispatchObjectData` lies at offset 0 of the payload, the payload's
alignment (repr(C, align(8))) is a multiple of the base data's alignment,
and the mechanical compile-time check of both facts passes. -/
theorem dispatch_layout_base_at_zero (baseSize baseAlign dispSize dispAlign j k : Nat)
    (hb : baseAlign = 2 ^ j) (hd : dispAlign = 2 ^ k) :
    (reprCOffsets (dispatchObjectFields baseSize baseAlign dispSize dispAlign)).headD 1
      = 0 ∧
    baseAlign ∣ reprCAlign 8 (dispatchObjectFields baseSize baseAlign dispSize dispAlign) ∧
    dispatchObjectLayoutCheck baseSize baseAlign dispSize dispAlign = true := by
  have hpos : 0 < baseAlign := hb ▸ Nat.pos_pow_of_pos j (by norm_num)
  have h0 :
      (reprCOffsets (dispatchObjectFields baseSize baseAlign dispSize dispAlign)).headD 1
        = 0 := by
    simp [reprCOffsets, reprCOffsetsFrom, dispatchObjectFields, alignUp_zero _ hpos]
  have hdvd :
      baseAlign ∣
        reprCAlign 8 (dispatchObjectFields baseSize baseAlign dispSize dispAlign) := by
    have h8 : (8 : Nat) = 2 ^ 3 := by norm_num
    have : reprCAlign 8 (dispatchObjectFields baseSize baseAlign dispSize dispAlign)
        = 2 ^ max (max 3 j) k := by
      simp only [reprCAlign, dispatchObjectFields, List.foldl, hb, hd, h8,
        max_pow_two]
    rw [this, hb]
    exact pow_dvd_pow 2 (Nat.le_trans (Nat.le_max_right 3 j) (Nat.le_max_left _ k))
  refine ⟨h0, hdvd, ?_⟩
  simp only [dispatchObjectLayoutCheck, Bool.and_eq_true, decide_eq_true_eq]
  exact ⟨h0, hdvd⟩

/-- Witness for C2 at concrete sizes and 8-byte alignments. -/
theorem dispatch_layout_base_at_zero_witness :
    (reprCOffsets (dispatchObjectFields 64 8 48 8)).headD 1 = 0 ∧
    (8 : Nat) ∣ reprCAlign 8 (dispatchObjectFields 64 8 48 8) ∧
    dispatchObjectLayoutCheck 64 8 48 8 = true :=
  dispatch_layout_base_at_zero 64 8 48 8 3 3 (by norm_num) (by norm_num)

/-! ### Idempotent listener registration -/

/-- Inserting a listener adds it once to the counted occurrences. -/
theorem countP_insertByPriority (l : Listener) (b : List Listener)
    (p : Listener → Bool) :
    (insertByPriority l b).countP p = b.countP p + (if p l then 1 else 0) := by
  induction b with
  | nil => simp [insertByPriority, List.countP_cons]
  | cons x xs ih =>
    by_cases hp : l.priority ≤ x.priority
    · simp [insertByPriority, hp, List.countP_cons, ih]
      omega
    · simp [insertByPriority, hp, List.countP_cons]

/-- The inserted listener is a member of the insertion's result. -/
theorem mem_insertByPriority (l : Listener) (b : List Listener) :
    l ∈ insertByPriority l b := by
  induction b with
  | nil => simp [insertByPriority]
  | cons x xs ih =>
    by_cases hp : l.priority ≤ x.priority
    · simp [insertByPriority, hp]
      exact Or.inr ih
    · simp [insertByPriority, hp]

/-- Writing a bucket back makes it the bucket subsequently read. -/
theorem bucket_setBucket (dl : DispatchList) (et : String) (uc : Bool)
    (b : List Listener) :
    (dl.setBucket et uc b).bucket et uc = b := by
  simp [DispatchList.bucket, DispatchList.setBucket, List.find?]

/-- Registration is a no-op as soon as the bucket already holds the
callback. -/
theorem add_listener_noop_of_any (dl : DispatchList) (et : String) (cb : Nat)
    (uc : Bool) (pr : Int) (o : Bool)
    (h : (dl.bucket et uc).any (fun l => l.callback == cb) = true) :
    dl.add_listener et cb uc pr o = dl := by
  simp [DispatchList.add_listener, h]

/-- C8: Registering the same (event-type, callback, use-capture) triple a
second time is a no-op: starting from a list holding at most one matching
registration, after an `add_listener` the second identical call returns
the list unchanged, exactly one matching registration exists, and a
dispatch through that bucket invokes the callback exactly once. -/
theorem add_listener_idempotent (dl : DispatchList) (et : String) (cb : Nat)
    (uc : Bool) (pr pr₂ : Int) (once once₂ : Bool)
    (hwf : (dl.bucket et uc).countP (fun l => l.callback == cb) ≤ 1) :
    (dl.add_listener et cb uc pr once).add_listener et cb uc pr₂ once₂ =
      dl.add_listener et cb uc pr once ∧
    ((dl.add_listener et cb uc pr once).bucket et uc).countP
      (fun l => l.callback == cb) = 1 ∧
    ((dl.add_listener et cb uc pr once).invocationCallbacks et uc).count cb = 1 := by
  by_cases hmem : (dl.bucket et uc).any (fun l => l.callback == cb) = true
  · have hdl : dl.add_listener et cb uc pr once = dl :=
      add_listener_noop_of_any dl et cb uc pr once hmem
    have hcount : (dl.bucket et uc).countP (fun l => l.callback == cb) = 1 := by
      have hpos : 0 < (dl.bucket et uc).countP (fun l => l.callback == cb) := by
        rcases List.any_eq_true.mp hmem with ⟨x, hx, hpx⟩
        exact List.countP_pos_iff.mpr ⟨x, hx, hpx⟩
      omega
    refine ⟨?_, ?_, ?_⟩
    · rw [hdl]
      exact add_listener_noop_of_any dl et cb uc pr₂ once₂ hmem
    · rw [hdl]
      exact hcount
    · rw [hdl]
      simp only [DispatchList.invocationCallbacks, List.count, List.countP_map,
        Function.comp]
      exact hcount
  · have hzero : (dl.bucket et uc).countP (fun l => l.callback == cb) = 0 := by
      rw [List.countP_eq_zero]
      intro a ha hpa
      exact hmem (List.any_eq_true.mpr ⟨a, ha, hpa⟩)
    have hb₁ : (dl.add_listener et cb uc pr once).bucket et uc =
        insertByPriority ⟨cb, pr, once⟩ (dl.bucket et uc) := by
      simp [DispatchList.add_listener, hmem, bucket_setBucket]
    have hcnt₁ : ((dl.add_listener et cb uc pr once).bucket et uc).countP
        (fun l => l.callback == cb) = 1 := by
      rw [hb₁, countP_insertByPriority]
      simp [hzero]
    have hany₁ : ((dl.add_listener et cb uc pr once).bucket et uc).any
        (fun l => l.callback == cb) = true := by
      rw [hb₁]
      exact List.any_eq_true.mpr ⟨⟨cb, pr, once⟩, mem_insertByPriority _ _, by simp⟩
    refine ⟨add_listener_noop_of_any _ et cb uc pr₂ once₂ hany₁, hcnt₁, ?_⟩
    simp only [DispatchList.invocationCallbacks, List.count, List.countP_map,
      Function.comp]
    exact hcnt₁

/-- Witness for C8 on the empty dispatch list at a concrete registration. -/
theorem add_listener_idempotent_witness :
    ((DispatchList.new.add_listener "click" 1 false 0 false).add_listener
        "click" 1 false 5 true =
      DispatchList.new.add_listener "click" 1 false 0 false) ∧
    ((DispatchList.new.add_listener "click" 1 false 0 false).bucket
        "click" false).countP (fun l => l.callback == 1) = 1 ∧
    ((DispatchList.new.add_listener "click" 1 false 0 false).invocationCallbacks
        "click" false).count 1 = 1 :=
  add_listener_idempotent DispatchList.new "click" 1 false 0 5 false true (by decide)

/-! ### Web instance builder (`web/src/builder.rs`)

The configuration enums come from the external ruffle crates; they are
embedded as plain inductives with the variants the builder uses.  The f64
fields are inert configuration payload here (no arithmetic is performed on
them), so they are carried as IEEE-754 bit patterns. -/

/-- Letterbox mode (`ruffle_core::config::Letterbox`). -/
inductive Letterbox where
  | Off : Letterbox
  | Fullscreen : Letterbox
  | On : Letterbox
deriving DecidableEq, Repr

/-- Stage quality (`ruffle_render::quality::StageQuality`). -/
inductive StageQuality where
  | Low : StageQuality
  | Medium : StageQuality
  | High : StageQuality
  | Best : StageQuality
  | High8x8 : StageQuality
  | High8x8Linear : StageQuality
  | High16x16 : StageQuality
  | High16x16Linear : StageQuality
deriving DecidableEq, Repr

/-- Stage scale mode (`ruffle_core::StageScaleMode`). -/
inductive StageScaleMode where
  | ExactFit : StageScaleMode
  | NoBorder : StageScaleMode
  | NoScale : StageScaleMode
  | ShowAll : StageScaleMode
deriving DecidableEq, Repr

/-- URL-opening policy (`ruffle_core::backend::navigator::OpenURLMode`). -/
inductive OpenURLMode where
  | Allow : OpenURLMode
  | Confirm : OpenURLMode
  | Deny : OpenURLMode
deriving DecidableEq, Repr

/-- Networking access mode (`ruffle_core::config::NetworkingAccessMode`). -/
inductive NetworkingAccessMode where
  | All : NetworkingAccessMode
  | Internal : NetworkingAccessMode
  | NoneAllowed : NetworkingAccessMode
deriving DecidableEq, Repr

/-- Player runtime (`ruffle_core::PlayerRuntime`). -/
inductive PlayerRuntime where
  | AIR : PlayerRuntime
  | FlashPlayer : PlayerRuntime
deriving DecidableEq, Repr

/-- Log verbosity (`tracing::Level`). -/
inductive LogLevel where
  | TRACE : LogLevel
  | DEBUG : LogLevel
  | INFO : LogLevel
  | WARN : LogLevel
  | ERROR : LogLevel
deriving DecidableEq, Repr

/-- Stage alignment flag set (`ruffle_core::StageAlign`). -/
structure StageAlign where
  top : Bool
  bottom : Bool
  left : Bool
  right : Bool
deriving DecidableEq, Repr

/-- An RGBA color; `Color::from_rgb(rgb, 255)` carries the packed rgb word
and the alpha byte. -/
structure Color where
  rgb : Nat
  alpha : Nat
deriving DecidableEq, Repr

/-- Compatibility rule set: the builder only ever stores the default set or
the empty set (`CompatibilityRules::default()` / `::empty()`). -/
inductive CompatibilityRules where
  | defaults : CompatibilityRules
  | empty : CompatibilityRules
deriving DecidableEq, Repr

/-- An f64 configuration payload, carried as its IEEE-754 bit pattern; the
builder never computes with these values. -/
structure F64 where
  bits : Nat
deriving DecidableEq, Repr

/-- A duration built by `Duration::from_secs_f64`. -/
structure Duration where
  secs : F64
deriving DecidableEq, Repr

/-- A socket proxy entry (`SocketProxy`). -/
structure SocketProxy where
  host : String
  port : Nat
  proxy_url : String
deriving DecidableEq, Repr

/-- Default device font slot (`ruffle_core::DefaultFont`). -/
inductive DefaultFont where
  | Sans : DefaultFont
  | Serif : DefaultFont
  | Typewriter : DefaultFont
deriving DecidableEq, Repr

/-- The web player configuration builder (`RuffleInstanceBuilder`), with
every field of the source struct; the `HashMap` of default fonts is an
association list and byte vectors are lists of bytes. -/
structure RuffleInstanceBuilder where
  allow_script_access : Bool
  background_color : Option Color
  letterbox : Letterbox
  upgrade_to_https : Bool
  compatibility_rules : CompatibilityRules
  base_url : Option String
  show_menu : Bool
  allow_fullscreen : Bool
  stage_align : StageAlign
  force_align : Bool
  quality : StageQuality
  scale : StageScaleMode
  force_scale : Bool
  frame_rate : Option F64
  wmode : Option String
  log_level : LogLevel
  max_execution_duration : Duration
  player_version : Option Nat
  preferred_renderer : Option String
  open_url_mode : OpenURLMode
  allow_networking : NetworkingAccessMode
  socket_proxy : List SocketProxy
  credential_allow_list : List String
  player_runtime : PlayerRuntime
  volume : F64
  default_fonts : List (DefaultFont × List String)
  custom_fonts : List (String × List Nat)
deriving DecidableEq, Repr

/-- The default configuration (`impl Default for RuffleInstanceBuilder`);
15.0 and 1.0 appear as their IEEE-754 bit patterns. -/
def RuffleInstanceBuilder.defaultBuilder : RuffleInstanceBuilder where
  allow_script_access := false
  background_color := none
  letterbox := Letterbox.Fullscreen
  upgrade_to_https := true
  compatibility_rules := CompatibilityRules.defaults
  base_url := none
  show_menu := true
  allow_fullscreen := false
  stage_align := ⟨false, false, false, false⟩
  force_align := false
  quality := StageQuality.High
  scale := StageScaleMode.ShowAll
  force_scale := false
  frame_rate := none
  wmode := none
  log_level := LogLevel.ERROR
  max_execution_duration := ⟨⟨0x402E000000000000⟩⟩
  player_version := none
  preferred_renderer := none
  open_url_mode := OpenURLMode.Allow
  allow_networking := NetworkingAccessMode.All
  socket_proxy := []
  credential_allow_list := []
  player_runtime := PlayerRuntime.FlashPlayer
  volume := ⟨0x3FF0000000000000⟩
  default_fonts := []
  custom_fonts := []

/-- The `setLetterbox` selector setter. -/
def RuffleInstanceBuilder.set_letterbox (b : RuffleInstanceBuilder)
    (value : String) : RuffleInstanceBuilder :=
  match value with
  | "off" => { b with letterbox := Letterbox.Off }
  | "fullscreen" => { b with letterbox := Letterbox.Fullscreen }
  | "on" => { b with letterbox := Letterbox.On }
  | _ => b

/-- The `setQuality` selector setter. -/
def RuffleInstanceBuilder.set_quality (b : RuffleInstanceBuilder)
    (value : String) : RuffleInstanceBuilder :=
  match value with
  | "low" => { b with quality := StageQuality.Low }
  | "medium" => { b with quality := StageQuality.Medium }
  | "high" => { b with quality := StageQuality.High }
  | "best" => { b with quality := StageQuality.Best }
  | "8x8" => { b with quality := StageQuality.High8x8 }
  | "8x8linear" => { b with quality := StageQuality.High8x8Linear }
  | "16x16" => { b with quality := StageQuality.High16x16 }
  | "16x16linear" => { b with quality := StageQuality.High16x16Linear }
  | _ => b

/-- The `setScale` selector setter. -/
def RuffleInstanceBuilder.set_scale (b : RuffleInstanceBuilder)
    (value : String) : RuffleInstanceBuilder :=
  match value with
  | "exactfit" => { b with scale := StageScaleMode.ExactFit }
  | "noborder" => { b with scale := StageScaleMode.NoBorder }
  | "noscale" => { b with scale := StageScaleMode.NoScale }
  | "showall" => { b with scale := StageScaleMode.ShowAll }
  | _ => b

/-- The `setOpenUrlMode` selector setter. -/
def RuffleInstanceBuilder.set_open_url_mode (b : RuffleInstanceBuilder)
    (value : String) : RuffleInstanceBuilder :=
  match value with
  | "allow" => { b with open_url_mode := OpenURLMode.Allow }
  | "confirm" => { b with open_url_mode := OpenURLMode.Confirm }
  | "deny" => { b with open_url_mode := OpenURLMode.Deny }
  | _ => b

/-- The `setAllowNetworking` selector setter. -/
def RuffleInstanceBuilder.set_allow_networking (b : RuffleInstanceBuilder)
    (value : String) : RuffleInstanceBuilder :=
  match value with
  | "all" => { b with allow_networking := NetworkingAccessMode.All }
  | "internal" => { b with allow_networking := NetworkingAccessMode.Internal }
  | "none" => { b with allow_networking := NetworkingAccessMode.NoneAllowed }
  | _ => b

/-- The `setPlayerRuntime` selector setter. -/
def RuffleInstanceBuilder.set_player_runtime (b : RuffleInstanceBuilder)
    (value : String) : RuffleInstanceBuilder :=
  match value with
  | "air" => { b with player_runtime := PlayerRuntime.AIR }
  | "flashPlayer" => { b with player_runtime := PlayerRuntime.FlashPlayer }
  | _ => b

/-- ASCII digit test on one character. -/
def isAsciiDigit (c : Char) : Bool := '0' ≤ c && c ≤ '9'

/-- Lower-case an ASCII letter, leaving every other character alone. -/
def asciiLower (c : Char) : Char :=
  if 'A' ≤ c && c ≤ 'Z' then Char.ofNat (c.toNat + 32) else c

/-- ASCII-case-insensitive string equality (`str::eq_ignore_ascii_case`). -/
def eqIgnoreAsciiCase (s t : String) : Bool :=
  s.data.map asciiLower == t.data.map asciiLower

/-- Decimal parse of an unsigned integer (`usize::from_str`): an optional
leading plus sign followed by at least one ASCII digit. -/
def parseUsize (s : String) : Option Nat :=
  let cs := if s.data.head? = some '+' then s.data.tail else s.data
  if cs ≠ [] ∧ cs.all isAsciiDigit = true then
    some (cs.foldl (fun acc c => acc * 10 + (c.toNat - 48)) 0)
  else none

/-- Parse a log level the way `tracing::Level::from_str` does: the numbers
1 to 5 map from ERROR down to TRACE, otherwise the five level names match
ASCII-case-insensitively. -/
def levelFromStr (s : String) : Option LogLevel :=
  match parseUsize s with
  | some 1 => some LogLevel.ERROR
  | some 2 => some LogLevel.WARN
  | some 3 => some LogLevel.INFO
  | some 4 => some LogLevel.DEBUG
  | some 5 => some LogLevel.TRACE
  | _ =>
    if eqIgnoreAsciiCase s "error" then some LogLevel.ERROR
    else if eqIgnoreAsciiCase s "warn" then some LogLevel.WARN
    else if eqIgnoreAsciiCase s "info" then some LogLevel.INFO
    else if eqIgnoreAsciiCase s "debug" then some LogLevel.DEBUG
    else if eqIgnoreAsciiCase s "trace" then some LogLevel.TRACE
    else none

/-- The `setLogLevel` setter: updates the field only when the string parses
as a level. -/
def RuffleInstanceBuilder.set_log_level (b : RuffleInstanceBuilder)
    (value : String) : RuffleInstanceBuilder :=
  match levelFromStr value with
  | some level => { b with log_level := level }
  | none => b

/-- Unrecognized letterbox selectors leave the builder untouched. -/
theorem set_letterbox_unrecognized (b : RuffleInstanceBuilder) (v : String)
    (h : ¬ v ∈ ["off", "fullscreen", "on"]) :
    b.set_letterbox v = b := by
  simp only [List.mem_cons, List.not_mem_nil, or_false, not_or] at h
  unfold RuffleInstanceBuilder.set_letterbox
  split <;> simp_all

/-- Unrecognized quality selectors leave the builder untouched. -/
theorem set_quality_unrecognized (b : RuffleInstanceBuilder) (v : String)
    (h : ¬ v ∈ ["low", "medium", "high", "best", "8x8", "8x8linear",
      "16x16", "16x16linear"]) :
    b.set_quality v = b := by
  simp only [List.mem_cons, List.not_mem_nil, or_false, not_or] at h
  unfold RuffleInstanceBuilder.set_quality
  split <;> simp_all

/-- Unrecognized scale selectors leave the builder untouched. -/
theorem set_scale_unrecognized (b : RuffleInstanceBuilder) (v : String)
    (h : ¬ v ∈ ["exactfit", "noborder", "noscale", "showall"]) :
    b.set_scale v = b := by
  simp only [List.mem_cons, List.not_mem_nil, or_false, not_or] at h
  unfold RuffleInstanceBuilder.set_scale
  split <;> simp_all

/-- Unrecognized URL-opening selectors leave the builder untouched. -/
theorem set_open_url_mode_unrecognized (b : RuffleInstanceBuilder) (v : String)
    (h : ¬ v ∈ ["allow", "confirm", "deny"]) :
    b.set_open_url_mode v = b := by
  simp only [List.mem_cons, List.not_mem_nil, or_false, not_or] at h
  unfold RuffleInstanceBuilder.set_open_url_mode
  split <;> simp_all

/-- Unrecognized networking selectors leave the builder untouched. -/
theorem set_allow_networking_unrecognized (b : RuffleInstanceBuilder) (v : String)
    (h : ¬ v ∈ ["all", "internal", "none"]) :
    b.set_allow_networking v = b := by
  simp only [List.mem_cons, List.not_mem_nil, or_false, not_or] at h
  unfold RuffleInstanceBuilder.set_allow_networking
  split <;> simp_all

/-- Unrecognized runtime selectors leave the builder untouched. -/
theorem set_player_runtime_unrecognized (b : RuffleInstanceBuilder) (v : String)
    (h : ¬ v ∈ ["air", "flashPlayer"]) :
    b.set_player_runtime v = b := by
  simp only [List.mem_cons, List.not_mem_nil, or_false, not_or] at h
  unfold RuffleInstanceBuilder.set_player_runtime
  split <;> simp_all

/-- Strings that do not parse as a log level leave the builder untouched. -/
theorem set_log_level_unrecognized (b : RuffleInstanceBuilder) (v : String)
    (h : levelFromStr v = none) :
    b.set_log_level v = b := by
  unfold RuffleInstanceBuilder.set_log_level
  split <;> simp_all

/-- C9: Every string-selector setter of the builder (letterbox, quality,
scale, open-url mode, networking, player runtime, log level), given a
string it does not recognize, is a silent no-op: the whole builder — the
targeted field and every other field — is returned unchanged. -/
theorem string_setters_unrecognized_noop (b : RuffleInstanceBuilder) (v : String)
    (hl : ¬ v ∈ ["off", "fullscreen", "on"])
    (hq : ¬ v ∈ ["low", "medium", "high", "best", "8x8", "8x8linear",
      "16x16", "16x16linear"])
    (hs : ¬ v ∈ ["exactfit", "noborder", "noscale", "showall"])
    (ho : ¬ v ∈ ["allow", "confirm", "deny"])
    (hn : ¬ v ∈ ["all", "internal", "none"])
    (hp : ¬ v ∈ ["air", "flashPlayer"])
    (hg : levelFromStr v = none) :
    b.set_letterbox v = b ∧ b.set_quality v = b ∧ b.set_scale v = b ∧
    b.set_open_url_mode v = b ∧ b.set_allow_networking v = b ∧
    b.set_player_runtime v = b ∧ b.set_log_level v = b :=
  ⟨set_letterbox_unrecognized b v hl, set_quality_unrecognized b v hq,
    set_scale_unrecognized b v hs, set_open_url_mode_unrecognized b v ho,
    set_allow_networking_unrecognized b v hn,
    set_player_runtime_unrecognized b v hp, set_log_level_unrecognized b v hg⟩

/-- Witness for C9: the selector "zzz" is recognized by no setter and
leaves the default builder unchanged through all seven. -/
theorem string_setters_unrecognized_noop_witness :
    RuffleInstanceBuilder.defaultBuilder.set_letterbox "zzz" =
      RuffleInstanceBuilder.defaultBuilder ∧
    RuffleInstanceBuilder.defaultBuilder.set_quality "zzz" =
      RuffleInstanceBuilder.defaultBuilder ∧
    RuffleInstanceBuilder.defaultBuilder.set_scale "zzz" =
      RuffleInstanceBuilder.defaultBuilder ∧
    RuffleInstanceBuilder.defaultBuilder.set_open_url_mode "zzz" =
      RuffleInstanceBuilder.defaultBuilder ∧
    RuffleInstanceBuilder.defaultBuilder.set_allow_networking "zzz" =
      RuffleInstanceBuilder.defaultBuilder ∧
    RuffleInstanceBuilder.defaultBuilder.set_player_runtime "zzz" =
      RuffleInstanceBuilder.defaultBuilder ∧
    RuffleInstanceBuilder.defaultBuilder.set_log_level "zzz" =
      RuffleInstanceBuilder.defaultBuilder :=
  string_setters_unrecognized_noop RuffleInstanceBuilder.defaultBuilder "zzz"
    (by decide) (by decide) (by decide) (by decide) (by decide) (by decide)
    (by decide)

/-! ### Font registration of `setup_fonts` -/

/-- The fields of a `DefineFont4` SWF tag that `setup_fonts` consults:
name, bold flag, italic flag, and the optional embedded font data. -/
structure DefineFont4Tag where
  name : String
  is_bold : Bool
  is_italic : Bool
  data : Option (List Nat)
deriving DecidableEq, Repr

/-- The SWF tags the `setup_fonts` tag loop distinguishes. -/
inductive SwfFontTag where
  | defineFont1 : SwfFontTag
  | defineFont2 (name : String) : SwfFontTag
  | defineFont4 (font : DefineFont4Tag) : SwfFontTag
  | otherTag : SwfFontTag
deriving DecidableEq, Repr

/-- A font registration handed to `Player::register_device_font`. -/
inductive FontDefinition where
  | swfTag (name : String) : FontDefinition
  | fontFile (name : String) (is_bold : Bool) (is_italic : Bool)
      (data : List Nat) (index : Nat) : FontDefinition
deriving DecidableEq, Repr

/-- The tag loop of `setup_fonts` over one decoded font SWF, collecting
the registrations it performs in order: `DefineFont` (v1) only logs,
`DefineFont2` registers the tag, `DefineFont4` with data registers a font
file — the source fills both its `is_bold` and its `is_italic` field from
the tag's `is_bold` flag — and `DefineFont4` without data only logs. -/
def registerTagFonts : List SwfFontTag → List FontDefinition
  | [] => []
  | SwfFontTag.defineFont1 :: rest => registerTagFonts rest
  | SwfFontTag.defineFont2 name :: rest =>
    FontDefinition.swfTag name :: registerTagFonts rest
  | SwfFontTag.defineFont4 font :: rest =>
    match font.data with
    | some d =>
      FontDefinition.fontFile font.name font.is_bold font.is_bold d 0 ::
        registerTagFonts rest
    | none => registerTagFonts rest
  | SwfFontTag.otherTag :: rest => registerTagFonts rest

/-- C10: A `DefineFont4` tag carrying data is registered as a font file
whose italic flag equals the tag's bold flag — the tag's own italic flag
is never consulted — so an italic-only tag (bold false, italic true) is
registered as neither bold nor italic. -/
theorem setup_fonts_italic_from_bold (font : DefineFont4Tag) (d : List Nat)
    (rest : List SwfFontTag) (hd : font.data = some d) :
    registerTagFonts (SwfFontTag.defineFont4 font :: rest) =
      FontDefinition.fontFile font.name font.is_bold font.is_bold d 0 ::
        registerTagFonts rest ∧
    (font.is_bold = false →
      registerTagFonts (SwfFontTag.defineFont4 font :: rest) =
        FontDefinition.fontFile font.name false false d 0 ::
          registerTagFonts rest) := by
  have hreg : registerTagFonts (SwfFontTag.defineFont4 font :: rest) =
      FontDefinition.fontFile font.name font.is_bold font.is_bold d 0 ::
        registerTagFonts rest := by
    simp [registerTagFonts, hd]
  exact ⟨hreg, fun hb => by rw [hreg, hb]⟩

/-- Witness for C10: an italic-only `DefineFont4` tag with data registers
a font file that is neither bold nor italic. -/
theorem setup_fonts_italic_from_bold_witness :
    registerTagFonts [SwfFontTag.defineFont4 ⟨"n", false, true, some [1, 2]⟩] =
      [FontDefinition.fontFile "n" false false [1, 2] 0] :=
  (setup_fonts_italic_from_bold ⟨"n", false, true, some [1, 2]⟩ [1, 2] [] rfl).1

end RuffleSpec
